import Mathlib

/-!
Verification of the librealsense DDS device-bridge core.

The definitions below are shallow embeddings of the C++ sources:

* `src/third-party/realdds/src/dds-device-impl.cpp` — the flexible-message
  client handshake (`dds_device::impl::init`, `dds_device::impl::open`);
* `src/third-party/realdds/include/realdds/dds-device-impl.h` — the older
  raw-message client handshake (`dds_device::impl::init`);
* `src/include/librealsense2/dds/dds-device-broadcaster.cpp` — the device
  broadcaster (`add_device`, `remove_dds_device`, the announcer task and the
  per-writer listener);
* `src/tools/dds/dds-server/rs-dds-server.cpp` — the server `get_topic_root`;
* `src/tools/dds/dds-server/lrs-device-controller.cpp` —
  `profiles_are_compatible`, `find_profile`, `start_streaming`.

Machine integers are modelled as `Nat`/`Int` (no overflow is reachable in the
modelled paths), C++ exceptions as `Except String`, and `std::map` objects as
association lists keyed by their C++ key.  Real time (the 30-second handshake
watchdog) is abstracted: a run of `init` is modelled by the finite list of
messages the loop actually processes, i.e. the messages that arrived within
the watchdog window.
-/

namespace RealDDS

/-! ## Stream profiles (realdds::dds_stream_profile)

A `dds_video_stream_profile` carries width/height in addition to the base
format and frequency; a motion profile carries only the base fields.  These
mirror the classes used by `lrs-device-controller.cpp`. -/

inductive DdsStreamProfile where
  | video (frequency : Nat) (format : String) (width : Nat) (height : Nat)
  | motion (frequency : Nat) (format : String)
  deriving DecidableEq, Repr

namespace DdsStreamProfile

/-- The `std::dynamic_pointer_cast< dds_video_stream_profile >` test. -/
def isVideo : DdsStreamProfile → Bool
  | .video _ _ _ _ => true
  | .motion _ _ => false

def frequency : DdsStreamProfile → Nat
  | .video f _ _ _ => f
  | .motion f _ => f

def format : DdsStreamProfile → String
  | .video _ fmt _ _ => fmt
  | .motion _ fmt => fmt

/-- Width of a video profile (only read when `isVideo` holds). -/
def width : DdsStreamProfile → Nat
  | .video _ _ w _ => w
  | .motion _ _ => 0

/-- Height of a video profile (only read when `isVideo` holds). -/
def height : DdsStreamProfile → Nat
  | .video _ _ _ h => h
  | .motion _ _ => 0

end DdsStreamProfile

/-! ## Client handshake, flexible-message implementation

`dds_device::impl::init` in `dds-device-impl.cpp`.  The handshake consumes
notifications; each is a self-describing record with an `id` field.  We model
the three shapes the state machine distinguishes.  `profiles` of a
stream-header is the list of already-parsed profiles, `defaultProfileIndex`
is the C++ `int` (may be negative). -/

inductive NMsg where
  | deviceHeader (nStreams : Nat)
  | streamHeader (name : String) (type : String) (sensorName : String)
      (defaultProfileIndex : Int) (profiles : List DdsStreamProfile)
  | other (id : String)
  deriving DecidableEq, Repr

/-- The states of `state_type` in `dds-device-impl.cpp`. -/
inductive StateType where
  | waitHeader   -- WAIT_FOR_DEVICE_HEADER
  | waitProfiles -- WAIT_FOR_PROFILES
  | done         -- DONE
  deriving DecidableEq, Repr

/-- The loop-local state of `init`: current state, `n_streams_expected`
and the keys of the `_streams` map (streams successfully instantiated). -/
structure PState where
  st : StateType
  nExpected : Nat
  streams : List String
  deriving DecidableEq, Repr

/-- The stream types accepted by the `TYPE2STREAM` chain in `init`. -/
def knownTypes : List String :=
  ["depth", "ir", "color", "accel", "gyro", "fisheye", "confidence", "pose"]

/-- One iteration of the message-processing loop of `init`
(`dds-device-impl.cpp` lines 189-249).  `DDS_THROW` is `Except.error`.
The checks appear in source order: too-many-streams, duplicate name,
unknown type, default-profile-index bounds. -/
def step (s : PState) (m : NMsg) : Except String PState :=
  match s.st, m with
  | .waitHeader, .deviceHeader n =>
    .ok { st := if n = 0 then .done else .waitProfiles, nExpected := n, streams := s.streams }
  | .waitProfiles, .streamHeader name type _sensor idx profiles =>
    if s.nExpected ≤ s.streams.length then
      .error "more streams than expected"
    else if name ∈ s.streams then
      .error "stream already exists"
    else if type ∉ knownTypes then
      .error "unknown stream type"
    else if idx < 0 ∨ (profiles.length : Int) ≤ idx then
      .error "default profile index out of bounds"
    else
      .ok { st := if s.nExpected ≤ s.streams.length + 1 then .done else .waitProfiles,
            nExpected := s.nExpected, streams := name :: s.streams }
  | _, _ => .error "unexpected notification"

/-- Run the loop over the processed messages; a thrown exception aborts. -/
def runFrom (s : PState) : List NMsg → Except String PState
  | [] => .ok s
  | m :: rest =>
    match step s m with
    | .ok s2 => runFrom s2 rest
    | .error e => .error e

def initState : PState := { st := .waitHeader, nExpected := 0, streams := [] }

/-- Whether a run ended in `DONE` without throwing (`init` returns
`state == DONE`; a `DDS_THROW` propagates as failure). -/
def initOk : Except String PState → Bool
  | .ok s => s.st == .done
  | .error _ => false

/-- `init` succeeds on the given processed message sequence. -/
def initSuccess (msgs : List NMsg) : Bool :=
  initOk (runFrom initState msgs)

/-! ### The claim-side characterisation of a successful handshake

Modelled from the spec: a device-header announcing `N` streams followed by
`N` valid, distinct stream-header records (known type, default-profile-index
in range, no duplicate names, no extras). -/

/-- A stream-header that is valid given the names already `seen`:
known type, not a duplicate, default-profile-index within `[0, len)`. -/
def validHeader (seen : List String) : NMsg → Bool
  | .streamHeader name type _sensor idx profiles =>
    decide (type ∈ knownTypes) && !(decide (name ∈ seen))
      && decide (0 ≤ idx) && decide (idx < (profiles.length : Int))
  | _ => false

def headerName : NMsg → String
  | .streamHeader name _ _ _ _ => name
  | _ => ""

/-- `N - seen` further valid distinct stream-headers and nothing else. -/
def specStreams (n : Nat) (seen : List String) : List NMsg → Bool
  | [] => decide (seen.length = n)
  | m :: rest =>
    decide (seen.length < n) && validHeader seen m && specStreams n (headerName m :: seen) rest

/-- Modelled from the spec: the processed sequence is a `device-header`
announcing `N` streams followed by exactly `N` valid, distinct
stream-headers. -/
def specHandshake : List NMsg → Bool
  | .deviceHeader n :: rest => specStreams n [] rest
  | _ => false

/-! ## Client handshake, raw-message implementation

`dds_device::impl::init` in `dds-device-impl.h`.  This variant distinguishes
four message kinds by numeric id, never throws (wrong messages are only
logged) and reaches `DONE` when the number of received profile messages
covers `num_of_sensors`. -/

inductive HMsg where
  | deviceHeader (numSensors : Nat)
  | sensorHeader (index : Nat) (name : String)
  | videoProfiles (index : Nat)
  | motionProfiles (index : Nat)
  | other
  deriving DecidableEq, Repr

inductive HStateType where
  | waitDeviceHeader -- WAIT_FOR_DEVICE_HEADER
  | waitSensorHeader -- WAIT_FOR_SENSOR_HEADER
  | waitProfiles     -- WAIT_FOR_PROFILES
  | done             -- DONE
  deriving DecidableEq, Repr

/-- Loop state of the raw `init`: `_num_of_sensors`, `_sensor_index_to_name`
and the key sets of `_sensor_to_video_profiles` / `_sensor_to_motion_profiles`
(`emplace` does not overwrite an existing key). -/
structure HState where
  st : HStateType
  numSensors : Nat
  sensorNames : List (Nat × String)
  videoSensors : List Nat
  motionSensors : List Nat
  deriving DecidableEq, Repr

/-- `std::unordered_map::emplace` on the key set: insert only if absent. -/
def emplaceKey (k : Nat) (ks : List Nat) : List Nat :=
  if k ∈ ks then ks else k :: ks

/-- One iteration of the raw `init` loop (`dds-device-impl.h` lines 204-312).
No branch throws; a wrong message only logs and leaves the state unchanged. -/
def hStep (s : HState) (m : HMsg) : HState :=
  match m with
  | .deviceHeader n =>
    if s.st = .waitDeviceHeader then
      { s with st := .waitSensorHeader, numSensors := n }
    else s
  | .sensorHeader i name =>
    if s.st = .waitSensorHeader then
      { s with
        st := .waitProfiles,
        sensorNames := if i ∈ s.sensorNames.map Prod.fst then s.sensorNames
                       else (i, name) :: s.sensorNames }
    else s
  | .videoProfiles i =>
    if s.st = .waitProfiles then
      if i ∈ s.sensorNames.map Prod.fst then
        let vs := emplaceKey i s.videoSensors
        { s with
          videoSensors := vs,
          st := if vs.length + s.motionSensors.length < s.numSensors then
                  .waitSensorHeader else .done }
      else s
    else s
  | .motionProfiles i =>
    if s.st = .waitProfiles then
      if i ∈ s.sensorNames.map Prod.fst then
        let ms := emplaceKey i s.motionSensors
        { s with
          motionSensors := ms,
          st := if s.videoSensors.length + ms.length < s.numSensors then
                  .waitSensorHeader else .done }
      else s
    else s
  | .other => s

def hInitState : HState :=
  { st := .waitDeviceHeader
    numSensors := 0
    sensorNames := []
    videoSensors := []
    motionSensors := [] }

def hRun (s : HState) (msgs : List HMsg) : HState := msgs.foldl hStep s

/-- The raw `init` returns `state == DONE` after processing the messages. -/
def hInitSuccess (msgs : List HMsg) : Bool :=
  (hRun hInitState msgs).st == .done

/-! ## Topic roots

`dds_device_broadcaster::get_topic_root` in `dds-device-broadcaster.cpp`
unconditionally removes the first 16 characters of the device name with
`substr`; `std::string::substr( pos )` throws `std::out_of_range` when
`pos > size()`, modelled by `none`.  The server-side `get_topic_root` in
`rs-dds-server.cpp` strips the prefix only when the name is longer than the
prefix and actually starts with it. -/

def namePrefixString : String := "Intel RealSense "

/-- `dds_device_broadcaster::get_topic_root( dev_name, dev_sn )`. -/
def broadcasterGetTopicRoot (devName devSn : String) : Option String :=
  if devName.length < namePrefixString.length then none
  else some ("realsense/" ++ devName.drop namePrefixString.length ++ "/" ++ devSn)

/-- `get_topic_root( dev_info )` of `rs-dds-server.cpp` (fields `name`,
`serial`). -/
def serverGetTopicRoot (name serial : String) : String :=
  let model :=
    if namePrefixString.length < name.length
        ∧ name.take namePrefixString.length = namePrefixString then
      name.drop namePrefixString.length
    else name
  "realsense/" ++ model ++ "/" ++ serial

/-! ## Broadcaster

`dds-device-broadcaster.cpp`.  One writer per device on the single broadcast
topic; a `dds_client_listener` per writer with its `_new_reader_joined` flag;
the `_device_handle_by_sn` map keyed by serial.  The announcer task scans all
handles and, for each with the flag set, sends the device-info record and
clears the flag.

The DDS transport itself is outside `src/`.  Modelled from the spec: a
reliable volatile write on a writer is delivered to exactly the readers
currently matched with that writer, and `Publisher::delete_datawriter`
fails (returns a non-OK code) exactly on a null writer. -/

/-- One entry of `_device_handle_by_sn`: whether `data_writer` is non-null,
the listener's `_new_reader_joined` flag, and the readers currently matched
with this writer.  A default-constructed handle (from `std::map::operator[]`
on a missing key) has a null writer and a null listener. -/
structure WriterHandle where
  hasWriter : Bool
  newReaderJoined : Bool
  matched : List Nat
  deriving DecidableEq, Repr

def defaultHandle : WriterHandle :=
  { hasWriter := false, newReaderJoined := false, matched := [] }

/-- Broadcaster state: the handle map, the log of `send_device_info_msg`
writes (by serial) and the records delivered to readers
(reader id, serial). -/
structure BState where
  handles : List (String × WriterHandle)
  writes : List String
  deliveries : List (Nat × String)
  deriving DecidableEq, Repr

def emptyBState : BState := { handles := [], writes := [], deliveries := [] }

/-- `std::map::find` on an association list (exact key equality, first hit). -/
def alookup {β : Type} (key : String) : List (String × β) → Option β
  | [] => none
  | (k, v) :: rest => if key = k then some v else alookup key rest

def lookupHandle (key : String) (hs : List (String × WriterHandle)) :
    Option WriterHandle :=
  alookup key hs

def eraseHandle (key : String) (hs : List (String × WriterHandle)) :
    List (String × WriterHandle) :=
  hs.filter (fun p => p.1 ≠ key)

/-- `add_dds_device` / `create_device_writer`: if the serial is not yet in the
map, create a writer (with data-sharing off) and a fresh listener — whose
`_new_reader_joined` flag starts `false` — and register the handle.  Nothing
is written to the topic here. -/
def addDdsDevice (s : BState) (serial : String) : BState :=
  if (lookupHandle serial s.handles).isSome then s
  else { s with handles :=
          s.handles ++ [(serial, { hasWriter := true, newReaderJoined := false, matched := [] })] }

/-- `remove_dds_device`: `_device_handle_by_sn[device_key]` default-inserts a
handle when the key is absent; `delete_datawriter` on its writer fails on a
null writer, in which case the function returns early and the entry stays;
on success the entry is erased. -/
def removeDdsDevice (s : BState) (key : String) : BState :=
  let handles :=
    match lookupHandle key s.handles with
    | some _ => s.handles
    | none => s.handles ++ [(key, defaultHandle)]
  match lookupHandle key handles with
  | some h =>
    if h.hasWriter then { s with handles := eraseHandle key handles }
    else { s with handles := handles }
  | none => { s with handles := handles }

/-- `dds_client_listener::on_publication_matched` with
`current_count_change == 1` for the writer of `serial` and reader `r`
(delivered through the dispatcher): record the match and set
`_new_reader_joined`.  A match can only involve an existing writer. -/
def publicationMatched (s : BState) (serial : String) (r : Nat) : BState :=
  { s with handles := s.handles.map (fun p =>
      if p.1 = serial ∧ p.2.hasWriter then
        (p.1, { p.2 with newReaderJoined := true, matched := r :: p.2.matched })
      else p) }

/-- One announcer cycle (`_new_client_handler` body): scan all handles; for
each with `_new_reader_joined`, `send_device_info_msg` writes the current
record — delivered to all readers matched with that writer — and on success
clears the flag. -/
def announce (s : BState) : BState :=
  { handles := s.handles.map (fun p =>
      if p.2.newReaderJoined then (p.1, { p.2 with newReaderJoined := false }) else p)
    writes := s.writes ++ (s.handles.filter (fun p => p.2.newReaderJoined)).map Prod.fst
    deliveries := s.deliveries ++
      (s.handles.filter (fun p => p.2.newReaderJoined)).flatMap
        (fun p => p.2.matched.map (fun r => (r, p.1))) }

/-- Interleaved broadcaster events: device add/remove (via the dispatcher),
a DDS publication-matched callback, an announcer cycle. -/
inductive BEvent where
  | addDevice (serial : String)
  | removeDevice (serial : String)
  | pubMatched (serial : String) (r : Nat)
  | announce
  deriving DecidableEq, Repr

def bStep (s : BState) : BEvent → BState
  | .addDevice serial => addDdsDevice s serial
  | .removeDevice serial => removeDdsDevice s serial
  | .pubMatched serial r => publicationMatched s serial r
  | .announce => announce s

def bRun (events : List BEvent) : BState := events.foldl bStep emptyBState

/-- Number of device-info records for `serial` observed by reader `r`. -/
def deliveredCount (s : BState) (r : Nat) (serial : String) : Nat :=
  (s.deliveries.filter (fun d => d = (r, serial))).length

/-! ## Server-side open-streams handling

`lrs_device_controller::start_streaming` and its helpers
(`lrs-device-controller.cpp`).  A stream server is identified by name and
owns a list of profiles.  The `dds_stream_sensor_bridge` class is not under
`src/`; modelled from the spec (§4.F): `open` adds a profile to the pending
set, `reset` clears the pending set, `commit` makes the pending set the
committed set.  Neither `open` nor `reset` touches the committed set. -/

structure StreamServer where
  profiles : List DdsStreamProfile
  deriving DecidableEq, Repr

/-- `profiles_are_compatible( p1, p2, any_format )` of
`lrs-device-controller.cpp` lines 395-409, translated branch for branch. -/
def profilesAreCompatible (p1 p2 : DdsStreamProfile) (anyFormat : Bool) : Bool :=
  if p1.isVideo ≠ p2.isVideo then false
  else if p1.isVideo ∧ p2.isVideo ∧ (p1.width ≠ p2.width ∨ p1.height ≠ p2.height) then false
  else if ¬ anyFormat ∧ p1.format ≠ p2.format then false
  else p1.frequency == p2.frequency

/-- `find_profile( stream, profile, any_format )`: the first stream profile
compatible with the requested one. -/
def findProfile (server : StreamServer) (profile : DdsStreamProfile)
    (anyFormat : Bool) : Option DdsStreamProfile :=
  server.profiles.find? (fun sp => profilesAreCompatible sp profile anyFormat)

/-- Modelled from the spec: the `dds_stream_sensor_bridge` pending and
committed active-profile sets (each entry tags the profile with its stream
name). -/
structure Bridge where
  pending : List (String × DdsStreamProfile)
  committed : List (String × DdsStreamProfile)
  deriving DecidableEq, Repr

/-- Controller state: `_stream_name_to_server` and the bridge. -/
structure CState where
  servers : List (String × StreamServer)
  bridge : Bridge
  deriving DecidableEq, Repr

/-- An `open-streams` request: `reset` and `commit` (both default `true` in
the message) and the `stream-profiles` name-to-profile dictionary. -/
structure OpenMsg where
  reset : Bool
  commit : Bool
  streamProfiles : List (String × DdsStreamProfile)
  deriving DecidableEq, Repr

/-- The per-entry loop of `start_streaming`: look the stream server up by
name (`throw` on a miss), find a compatible profile (`throw` when none) and
`_bridge.open` it into the pending set. -/
def openStreamsLoop (servers : List (String × StreamServer)) (b : Bridge) :
    List (String × DdsStreamProfile) → Except String Bridge
  | [] => .ok b
  | (name, req) :: rest =>
      match alookup name servers with
      | none => .error "invalid stream name"
      | some server =>
        match findProfile server req false with
        | none => .error "invalid profile"
        | some p => openStreamsLoop servers { b with pending := b.pending ++ [(name, p)] } rest

/-- `start_streaming( msg )`: optional `_bridge.reset()`, the per-entry loop,
then optional `_bridge.commit()`.  A thrown exception leaves the controller
with the bridge as mutated so far; the error string is returned alongside. -/
def startStreaming (cs : CState) (msg : OpenMsg) : CState × Option String :=
  let b0 := if msg.reset then { cs.bridge with pending := [] } else cs.bridge
  match openStreamsLoop cs.servers b0 msg.streamProfiles with
  | .error e => ({ cs with bridge := b0 }, some e)
  | .ok b1 =>
    let b2 := if msg.commit then { b1 with committed := b1.pending } else b1
    ({ cs with bridge := b2 }, none)

/-- An entry of an `open-streams` request that must fail: its stream name
does not exist, or no profile of that stream is compatible with the request. -/
def badEntry (servers : List (String × StreamServer))
    (entry : String × DdsStreamProfile) : Prop :=
  match alookup entry.1 servers with
  | none => True
  | some server => findProfile server entry.2 false = none

instance (servers : List (String × StreamServer)) (entry : String × DdsStreamProfile) :
    Decidable (badEntry servers entry) := by
  unfold badEntry
  cases alookup entry.1 servers <;> infer_instance

/-! ## Client-side open

`dds_device::impl::open( profiles )` in `dds-device-impl.cpp` lines 89-114.
A client profile refers to its stream through `profile->stream()`, possibly
null.  The function builds the `stream-profiles` dictionary of the
`open-streams` control message and throws on an empty list, a stream-less
profile, or a second profile for the same stream.  `_streams[name]->open`
dereferences the device's stream map entry, which must exist (a missing name
default-inserts a null pointer whose dereference is undefined); theorems
about `implOpen` therefore assume every referenced stream is known. -/

structure CProfile where
  stream : Option String
  profile : DdsStreamProfile
  deriving DecidableEq, Repr

/-- The loop of `open`: `acc` is the `stream_profiles` json dictionary built
so far.  Checks in source order: null stream, duplicate stream name, then
the `_streams[name]` access. -/
def openGo (streams : List String) (acc : List (String × CProfile)) :
    List CProfile → Except String (List (String × CProfile))
  | [] => .ok acc
  | p :: rest =>
    match p.stream with
    | none => .error "profile is not part of any stream"
    | some name =>
      if (alookup name acc).isSome then .error "more than one profile found for stream"
      else if name ∈ streams then openGo streams (acc ++ [(name, p)]) rest
      else .error "stream not in device map"

/-- `dds_device::impl::open`: throws on an empty profile list, otherwise runs
the loop; on success `write_control_message` sends the `open-streams` message
whose `stream-profiles` dictionary is the returned association list. -/
def implOpen (streams : List String) (profiles : List CProfile) :
    Except String (List (String × CProfile)) :=
  if profiles.isEmpty then .error "must provide at least one profile"
  else openGo streams [] profiles

/-- Whether an `Except` run succeeded. -/
def exOk {ε α : Type} : Except ε α → Bool
  | .ok _ => true
  | .error _ => false

/-- A one-stream controller with a previously committed profile, used as a
concrete witness state. -/
def sampleCState : CState :=
  { servers := [("Depth", { profiles := [DdsStreamProfile.video 30 "Z16" 640 480] })]
    bridge := { pending := []
                committed := [("Old", DdsStreamProfile.video 15 "Z16" 320 240)] } }

/-- An `open-streams` request naming a stream that does not exist in
`sampleCState`. -/
def sampleBadMsg : OpenMsg :=
  { reset := true, commit := true
    streamProfiles := [("Bogus", DdsStreamProfile.video 30 "Z16" 640 480)] }

/-- The streams of a concrete client device, used as a witness state. -/
def sampleStreams : List String := ["Depth"]

/-- A one-element profile list for `implOpen`, attached to the `Depth`
stream. -/
def sampleOpenProfiles : List CProfile :=
  [{ stream := some "Depth", profile := DdsStreamProfile.video 30 "Z16" 640 480 }]

/-! ## Helper lemmas -/

theorem alookup_append_of_none {β : Type} (key : String)
    (hs : List (String × β)) (v : β) (h : alookup key hs = none) :
    alookup key (hs ++ [(key, v)]) = some v := by
  induction hs with
  | nil => simp [alookup]
  | cons p rest ih =>
    obtain ⟨k, w⟩ := p
    by_cases hk : key = k
    · simp [alookup, hk] at h
    · simp only [alookup, if_neg hk] at h ⊢
      exact ih h

theorem alookup_append_single_eq_none {β : Type} (n k : String)
    (hs : List (String × β)) (v : β) :
    alookup n (hs ++ [(k, v)]) = none ↔ alookup n hs = none ∧ n ≠ k := by
  induction hs with
  | nil => by_cases hk : n = k <;> simp [alookup, hk]
  | cons p rest ih =>
    obtain ⟨k', w⟩ := p
    by_cases hk' : n = k'
    · simp [alookup, hk']
    · simp only [List.cons_append, alookup, if_neg hk']
      exact ih

theorem alookup_eq_none_iff_not_memKeys {β : Type} (n : String)
    (hs : List (String × β)) :
    alookup n hs = none ↔ n ∉ hs.map Prod.fst := by
  induction hs with
  | nil => simp [alookup]
  | cons p rest ih =>
    obtain ⟨k, w⟩ := p
    by_cases hk : n = k
    · simp [alookup, hk]
    · simp [alookup, hk, ih, Ne.symm, hk]

theorem alookup_mem {β : Type} {key : String} {hs : List (String × β)} {v : β}
    (h : alookup key hs = some v) : (key, v) ∈ hs := by
  induction hs with
  | nil => simp [alookup] at h
  | cons p rest ih =>
    obtain ⟨k, w⟩ := p
    by_cases hk : key = k
    · subst hk
      simp [alookup] at h
      simp [h]
    · simp only [alookup, if_neg hk] at h
      exact List.mem_cons_of_mem _ (ih h)

/-! ## Claim theorems -/

/-- C6: `profiles_are_compatible( p1, p2, any_format )` returns `true` iff
the two profiles are of the same kind (both video or both not), their widths
and heights are equal when both are video, their frequencies are equal, and
— unless the `any_format` wildcard is set — their formats are equal. -/
theorem profilesAreCompatible_iff (p1 p2 : DdsStreamProfile) (anyFormat : Bool) :
    profilesAreCompatible p1 p2 anyFormat = true ↔
      (p1.isVideo = p2.isVideo
        ∧ (p1.isVideo = true → p2.isVideo = true →
            p1.width = p2.width ∧ p1.height = p2.height)
        ∧ p1.frequency = p2.frequency
        ∧ (anyFormat = false → p1.format = p2.format)) := by
  cases p1 <;> cases p2 <;> cases anyFormat <;>
    simp only [profilesAreCompatible, DdsStreamProfile.isVideo,
      DdsStreamProfile.width, DdsStreamProfile.height,
      DdsStreamProfile.frequency, DdsStreamProfile.format] <;>
    split_ifs <;> simp_all <;> tauto

/-- C3 fails: on a 17-character device name that does not carry the
`Intel RealSense ` prefix, the broadcaster (which unconditionally drops the
first 16 characters) and the server (which strips the prefix only when
present) return different topic roots. -/
theorem topicRoot_counterexample :
    broadcasterGetTopicRoot "0123456789abcdefX" "sn"
      ≠ some (serverGetTopicRoot "0123456789abcdefX" "sn") := by
  decide

/-- C3 amended: the broadcaster's and the server's `get_topic_root` agree —
and both return `"realsense/" ++ model ++ "/" ++ serial` with the
16-character `Intel RealSense ` prefix stripped — for every device name that
is longer than 16 characters and starts with that prefix (on other names the
two functions differ). -/
theorem topicRoot_agree_on_prefixed (name serial : String)
    (hlen : namePrefixString.length < name.length)
    (hpre : name.take namePrefixString.length = namePrefixString) :
    broadcasterGetTopicRoot name serial
        = some ("realsense/" ++ name.drop namePrefixString.length ++ "/" ++ serial)
      ∧ serverGetTopicRoot name serial
        = "realsense/" ++ name.drop namePrefixString.length ++ "/" ++ serial := by
  constructor
  · unfold broadcasterGetTopicRoot
    rw [if_neg (by omega)]
  · unfold serverGetTopicRoot
    rw [if_pos ⟨hlen, hpre⟩]

/-- Witness for `topicRoot_agree_on_prefixed` at the spec's S1 scenario. -/
theorem topicRoot_agree_on_prefixed_witness :
    broadcasterGetTopicRoot "Intel RealSense D435" "112233"
        = some ("realsense/" ++ ("Intel RealSense D435").drop namePrefixString.length
            ++ "/" ++ "112233")
      ∧ serverGetTopicRoot "Intel RealSense D435" "112233"
        = "realsense/" ++ ("Intel RealSense D435").drop namePrefixString.length
            ++ "/" ++ "112233" :=
  topicRoot_agree_on_prefixed "Intel RealSense D435" "112233" (by decide) (by decide)

/-- C7 fails for the raw-message implementation: a `DEVICE_HEADER` with zero
sensors moves its state machine to `WAIT_FOR_SENSOR_HEADER`, not `DONE`, so
its `init` does not succeed without further messages. -/
theorem hInit_zero_counterexample :
    (hRun hInitState [HMsg.deviceHeader 0]).st = HStateType.waitSensorHeader
      ∧ hInitSuccess [HMsg.deviceHeader 0] = false := by
  exact ⟨rfl, rfl⟩

/-- C7 amended: on a device-header with `n-streams = 0` the flexible-message
implementation transitions directly to `DONE` and `init` succeeds without
any further message, while the raw-message implementation instead moves to
`WAIT_FOR_SENSOR_HEADER` even when the count is zero. -/
theorem deviceHeader_zero_behaviour :
    initSuccess [NMsg.deviceHeader 0] = true
      ∧ runFrom initState [NMsg.deviceHeader 0]
          = .ok { st := .done, nExpected := 0, streams := [] }
      ∧ (hRun hInitState [HMsg.deviceHeader 0]).st = HStateType.waitSensorHeader := by
  exact ⟨rfl, rfl, rfl⟩

/-- C2 fails: in `WAIT_FOR_DEVICE_HEADER` a notification whose id is not
`device-header` makes `init` throw (`DDS_THROW "unexpected notification"`),
rather than log and stay; afterwards even a well-formed device-header cannot
make the handshake succeed. -/
theorem waitHeader_unexpected_counterexample :
    runFrom initState [NMsg.other "set-option"] = .error "unexpected notification"
      ∧ initSuccess [NMsg.other "set-option", NMsg.deviceHeader 0] = false := by
  exact ⟨rfl, rfl⟩

/-- C2 amended: while in `WAIT_FOR_DEVICE_HEADER`, processing any
notification that is not a `device-header` throws `"unexpected
notification"`, failing the handshake. -/
theorem waitHeader_unexpected_throws (s : PState) (m : NMsg)
    (hst : s.st = .waitHeader) (hm : ∀ k, m ≠ NMsg.deviceHeader k) :
    step s m = .error "unexpected notification" := by
  obtain ⟨st, n, ss⟩ := s
  simp only at hst
  subst hst
  cases m with
  | deviceHeader k => exact absurd rfl (hm k)
  | streamHeader a b c d e => rfl
  | other id => rfl

/-- Witness for `waitHeader_unexpected_throws` on a `set-option` id. -/
theorem waitHeader_unexpected_throws_witness :
    step initState (NMsg.other "set-option") = .error "unexpected notification" :=
  waitHeader_unexpected_throws initState (NMsg.other "set-option") rfl
    (fun _ h => NMsg.noConfusion h)

/-- Once the stream count is full, only an empty remainder is acceptable. -/
theorem specStreams_of_full (n : Nat) (seen : List String) (rest : List NMsg)
    (h : seen.length = n) : specStreams n seen rest = rest.isEmpty := by
  cases rest with
  | nil => simp [specStreams, h]
  | cons m tl => simp [specStreams, h]

/-- From `DONE`, any further processed message throws, so the run succeeds
exactly when no message remains. -/
theorem runFrom_done (msgs : List NMsg) (n : Nat) (ss : List String) :
    initOk (runFrom ⟨.done, n, ss⟩ msgs) = msgs.isEmpty := by
  cases msgs with
  | nil => rfl
  | cons m rest =>
    have hstep : step ⟨.done, n, ss⟩ m = .error "unexpected notification" := by
      cases m <;> rfl
    simp [runFrom, hstep, initOk]

/-- In `WAIT_FOR_PROFILES` with `seen` streams so far, the run reaches `DONE`
exactly when the remainder supplies the missing valid distinct
stream-headers and nothing else. -/
theorem runFrom_profiles (rest : List NMsg) : ∀ (n : Nat) (seen : List String),
    seen.length < n →
    initOk (runFrom ⟨.waitProfiles, n, seen⟩ rest) = specStreams n seen rest := by
  induction rest with
  | nil =>
    intro n seen h
    simp [runFrom, initOk, specStreams, Nat.ne_of_lt h]
  | cons m tl ih =>
    intro n seen h
    cases m with
    | deviceHeader k =>
      have hstep : step ⟨.waitProfiles, n, seen⟩ (.deviceHeader k)
          = .error "unexpected notification" := rfl
      simp [runFrom, hstep, initOk, specStreams, validHeader]
    | other id =>
      have hstep : step ⟨.waitProfiles, n, seen⟩ (.other id)
          = .error "unexpected notification" := rfl
      simp [runFrom, hstep, initOk, specStreams, validHeader]
    | streamHeader name type sensor idx profiles =>
      simp only [runFrom, step]
      rw [if_neg (by omega : ¬ n ≤ seen.length)]
      by_cases hdup : name ∈ seen
      · rw [if_pos hdup]
        simp [initOk, specStreams, validHeader, hdup, h]
      · rw [if_neg hdup]
        by_cases hty : type ∈ knownTypes
        case neg =>
          rw [if_pos (by simpa using hty)]
          simp [initOk, specStreams, validHeader, hty]
        case pos =>
          rw [if_neg (by simpa using hty)]
          by_cases hidx : idx < 0 ∨ (profiles.length : Int) ≤ idx
          · rw [if_pos hidx]
            have hvh : validHeader seen (.streamHeader name type sensor idx profiles) = false := by
              simp [validHeader, hdup, hty]
              omega
            simp [initOk, specStreams, hvh]
          · rw [if_neg hidx]
            push_neg at hidx
            have hvh : validHeader seen (.streamHeader name type sensor idx profiles) = true := by
              simp [validHeader, hdup, hty]
              omega
            by_cases hn : n ≤ seen.length + 1
            · have hn' : n = seen.length + 1 := by omega
              rw [if_pos hn]
              simp only [runFrom_done]
              rw [specStreams, hvh]
              simp only [headerName]
              rw [specStreams_of_full n (name :: seen) tl (by simp [hn'])]
              simp [h]
            · rw [if_neg hn]
              rw [ih n (name :: seen) (by simp; omega)]
              rw [specStreams, hvh]
              simp [headerName, h]

/-- C1: `init` returns success (final state `DONE`) if and only if the
processed notification sequence is a `device-header` announcing `N` streams
followed by `N` valid, distinct `stream-header` records (known type,
default-profile-index in range, no duplicate names, no extras); the
30-second watchdog is abstracted into the processed sequence — the messages
the loop consumed before the deadline. -/
theorem init_done_iff_spec (msgs : List NMsg) :
    initSuccess msgs = specHandshake msgs := by
  cases msgs with
  | nil => rfl
  | cons m rest =>
    cases m with
    | deviceHeader n =>
      by_cases hn : n = 0
      · subst hn
        have hstep : step initState (.deviceHeader 0) = .ok ⟨.done, 0, []⟩ := rfl
        simp only [initSuccess, runFrom, hstep, specHandshake]
        rw [runFrom_done]
        rw [specStreams_of_full 0 [] rest rfl]
      · have hstep : step initState (.deviceHeader n) = .ok ⟨.waitProfiles, n, []⟩ := by
          simp [step, initState, hn]
        simp only [initSuccess, runFrom, hstep, specHandshake]
        exact runFrom_profiles rest n [] (by simp; omega)
    | streamHeader name type sensor idx profiles =>
      have hstep : step initState (.streamHeader name type sensor idx profiles)
          = .error "unexpected notification" := rfl
      simp [initSuccess, runFrom, hstep, initOk, specHandshake]
    | other id =>
      have hstep : step initState (.other id) = .error "unexpected notification" := rfl
      simp [initSuccess, runFrom, hstep, initOk, specHandshake]

/-- C8 fails: right after `add_device` of a serial on an idle broadcaster the
handle is registered, but no record has been written
(`send_device_info_msg` is only ever called from the announcer) and the
per-writer needs-send flag is still `false` (it is armed by
`on_publication_matched`, not by the add). -/
theorem addDevice_counterexample :
    (bRun [BEvent.addDevice "112233"]).writes = []
      ∧ (alookup "112233" (bRun [BEvent.addDevice "112233"]).handles).map
          WriterHandle.newReaderJoined = some false := by
  exact ⟨rfl, rfl⟩

/-- C8 amended: `add_device` registers a device handle keyed by the serial
with a fresh writer, but posts no record and leaves the needs-send flag
unarmed at add time; the flag is armed later by `on_publication_matched`
when a subscriber matches, after which the announcer posts the record. -/
theorem addDevice_registers_without_posting (s : BState) (serial : String)
    (h : alookup serial s.handles = none) :
    alookup serial (addDdsDevice s serial).handles
        = some { hasWriter := true, newReaderJoined := false, matched := [] }
      ∧ (addDdsDevice s serial).writes = s.writes
      ∧ (addDdsDevice s serial).deliveries = s.deliveries := by
  have hif : addDdsDevice s serial
      = { s with handles :=
            s.handles ++ [(serial, { hasWriter := true, newReaderJoined := false, matched := [] })] } := by
    unfold addDdsDevice lookupHandle
    rw [h]
    rfl
  rw [hif]
  exact ⟨alookup_append_of_none serial s.handles _ h, rfl, rfl⟩

/-- Witness for `addDevice_registers_without_posting` on an idle broadcaster. -/
theorem addDevice_registers_without_posting_witness :
    alookup "112233" (addDdsDevice emptyBState "112233").handles
        = some { hasWriter := true, newReaderJoined := false, matched := [] }
      ∧ (addDdsDevice emptyBState "112233").writes = emptyBState.writes
      ∧ (addDdsDevice emptyBState "112233").deliveries = emptyBState.deliveries :=
  addDevice_registers_without_posting emptyBState "112233" rfl

/-- C10: `remove_dds_device` erases the serial's entry exactly when deleting
its data writer succeeds; on a delete error the entry is kept, and removing
a never-added serial default-inserts (via `operator[]`) a handle with a null
writer that then stays in the map. -/
theorem removeDevice_behaviour (s : BState) (key : String) :
    (∀ h, alookup key s.handles = some h → h.hasWriter = true →
        (removeDdsDevice s key).handles = eraseHandle key s.handles)
      ∧ (∀ h, alookup key s.handles = some h → h.hasWriter = false →
        (removeDdsDevice s key).handles = s.handles)
      ∧ (alookup key s.handles = none →
        (removeDdsDevice s key).handles = s.handles ++ [(key, defaultHandle)]) := by
  refine ⟨?_, ?_, ?_⟩
  · intro h hs hw
    unfold removeDdsDevice lookupHandle
    simp [hs, hw]
  · intro h hs hw
    unfold removeDdsDevice lookupHandle
    simp [hs, hw]
  · intro hnone
    unfold removeDdsDevice lookupHandle
    simp only [hnone]
    rw [alookup_append_of_none key s.handles defaultHandle hnone]
    rfl

/-- C4 fails: with device `A` added and never removed, reader 1 matched and
announced, a second reader's later match triggers another announce cycle
that re-writes `A`'s record on the same writer — so reader 1, still matched,
receives a second record for the same device. -/
theorem broadcast_duplicate_counterexample :
    deliveredCount (bRun [BEvent.addDevice "A", BEvent.pubMatched "A" 1, BEvent.announce,
        BEvent.pubMatched "A" 2, BEvent.announce]) 1 "A" = 2
      ∧ (alookup "A" (bRun [BEvent.addDevice "A", BEvent.pubMatched "A" 1, BEvent.announce,
          BEvent.pubMatched "A" 2, BEvent.announce]).handles).isSome = true := by
  exact ⟨rfl, rfl⟩

/-- Helper for C4: an announce cycle delivers every record contributed by a
flagged writer to each of its matched readers. -/
theorem deliveredCount_announce (t : BState) (r : Nat) (d : String)
    (hdel : (r, d) ∈ (t.handles.filter (fun p => p.2.newReaderJoined)).flatMap
        (fun p => p.2.matched.map (fun r' => (r', p.1)))) :
    deliveredCount t r d + 1 ≤ deliveredCount (announce t) r d := by
  unfold deliveredCount
  simp only [announce]
  rw [List.filter_append, List.length_append]
  have hpos : 0 < (((t.handles.filter (fun p => p.2.newReaderJoined)).flatMap
      (fun p => p.2.matched.map (fun r' => (r', p.1)))).filter
        (fun x => x = (r, d))).length :=
    List.length_pos_of_mem (List.mem_filter.mpr ⟨hdel, by simp⟩)
  omega

/-- C4 amended: at-least-once delivery holds — whenever a reader matches an
existing device writer and an announcer cycle then runs, that reader
receives at least one (further) record for that device — but at-most-once
does not: a later subscriber's match makes the announcer re-send on the
writer, and every already-matched subscriber receives a duplicate record. -/
theorem broadcast_match_then_announce_delivers (s : BState) (d : String) (r : Nat)
    (h : WriterHandle) (hl : alookup d s.handles = some h) (hw : h.hasWriter = true) :
    deliveredCount s r d + 1 ≤ deliveredCount (announce (publicationMatched s d r)) r d := by
  have hmem : (d, h) ∈ s.handles := alookup_mem hl
  have hmem2 : (d, { hasWriter := true, newReaderJoined := true, matched := r :: h.matched })
      ∈ (publicationMatched s d r).handles := by
    unfold publicationMatched
    have := List.mem_map_of_mem (fun p : String × WriterHandle =>
      if p.1 = d ∧ p.2.hasWriter then
        (p.1, { p.2 with newReaderJoined := true, matched := r :: p.2.matched })
      else p) hmem
    simpa [hw] using this
  have hdel : (r, d) ∈ ((publicationMatched s d r).handles.filter
      (fun p => p.2.newReaderJoined)).flatMap
        (fun p => p.2.matched.map (fun r' => (r', p.1))) := by
    apply List.mem_flatMap.mpr
    refine ⟨(d, { hasWriter := true, newReaderJoined := true, matched := r :: h.matched }),
      ?_, ?_⟩
    · exact List.mem_filter.mpr ⟨hmem2, by simp⟩
    · simp
  have hsame : deliveredCount (publicationMatched s d r) r d = deliveredCount s r d := rfl
  have := deliveredCount_announce (publicationMatched s d r) r d hdel
  omega

/-- Helper for C5: the per-entry loop of `start_streaming` throws as soon as
a bad entry exists anywhere in the request. -/
theorem openStreamsLoop_error (servers : List (String × StreamServer)) :
    ∀ (entries : List (String × DdsStreamProfile)) (b : Bridge),
    (∃ e ∈ entries, badEntry servers e) →
    ∃ msg, openStreamsLoop servers b entries = .error msg := by
  intro entries
  induction entries with
  | nil =>
    intro b hbad
    obtain ⟨e, he, _⟩ := hbad
    simp at he
  | cons hd tl ih =>
    intro b hbad
    obtain ⟨name, req⟩ := hd
    cases hlk : alookup name servers with
    | none =>
      refine ⟨"invalid stream name", ?_⟩
      simp [openStreamsLoop, hlk]
    | some server =>
      cases hfp : findProfile server req false with
      | none =>
        refine ⟨"invalid profile", ?_⟩
        simp [openStreamsLoop, hlk, hfp]
      | some p =>
        obtain ⟨e, he, hbe⟩ := hbad
        rcases List.mem_cons.mp he with heq | hmem
        · exfalso
          subst heq
          simp only [badEntry, hlk] at hbe
          simp [hfp] at hbe
        · obtain ⟨msg, hmsg⟩ := ih { b with pending := b.pending ++ [(name, p)] } ⟨e, hmem, hbe⟩
          refine ⟨msg, ?_⟩
          simpa [openStreamsLoop, hlk, hfp] using hmsg

/-- C5: an `open-streams` request containing any stream name that does not
exist, or any profile with no compatible match among that stream's profiles,
fails the entire request atomically — an error is raised and the committed
active-profile state is unchanged (`_bridge.commit()` is never reached). -/
theorem startStreaming_atomic (cs : CState) (msg : OpenMsg)
    (hbad : ∃ e ∈ msg.streamProfiles, badEntry cs.servers e) :
    (startStreaming cs msg).2.isSome = true
      ∧ (startStreaming cs msg).1.bridge.committed = cs.bridge.committed := by
  obtain ⟨e, herr⟩ := openStreamsLoop_error cs.servers msg.streamProfiles
    (if msg.reset then { cs.bridge with pending := [] } else cs.bridge) hbad
  simp only [startStreaming]
  rw [herr]
  cases hreset : msg.reset <;> simp [hreset]

/-- Witness for `startStreaming_atomic`: a request naming the non-existent
stream `Bogus` errors out and leaves the committed set untouched. -/
theorem startStreaming_atomic_witness :
    (startStreaming sampleCState sampleBadMsg).2.isSome = true
      ∧ (startStreaming sampleCState sampleBadMsg).1.bridge.committed
        = sampleCState.bridge.committed :=
  startStreaming_atomic sampleCState sampleBadMsg (by decide)

/-- Witness for `broadcast_match_then_announce_delivers`: one device, one
matching reader, one announce cycle, one delivery. -/
theorem broadcast_match_then_announce_delivers_witness :
    deliveredCount
        { handles := [("A", { hasWriter := true, newReaderJoined := false, matched := [] })]
          writes := []
          deliveries := [] } 1 "A" + 1
      ≤ deliveredCount (announce (publicationMatched
          { handles := [("A", { hasWriter := true, newReaderJoined := false, matched := [] })]
            writes := []
            deliveries := [] } "A" 1)) 1 "A" :=
  broadcast_match_then_announce_delivers _ "A" 1
    { hasWriter := true, newReaderJoined := false, matched := [] } rfl rfl

/-- Witness for `removeDevice_behaviour`: a successful delete erases, a null
writer keeps the entry, a missing serial leaves a default-inserted handle. -/
theorem removeDevice_behaviour_witness :
    (removeDdsDevice
          { handles := [("A", { hasWriter := true, newReaderJoined := false, matched := [] })]
            writes := []
            deliveries := [] } "A").handles
        = eraseHandle "A" [("A", { hasWriter := true, newReaderJoined := false, matched := [] })]
      ∧ (removeDdsDevice
          { handles := [("B", defaultHandle)], writes := [], deliveries := [] } "B").handles
        = [("B", defaultHandle)]
      ∧ (removeDdsDevice emptyBState "C").handles
        = emptyBState.handles ++ [("C", defaultHandle)] :=
  ⟨(removeDevice_behaviour _ "A").1 _ rfl rfl,
   (removeDevice_behaviour _ "B").2.1 _ rfl rfl,
   (removeDevice_behaviour emptyBState "C").2.2 rfl⟩

/-- Helper for C9: the loop of `open` succeeds exactly when every remaining
profile has a stream, the remaining stream names are pairwise distinct, and
none collides with a name already in the accumulated dictionary. -/
theorem openGo_ok_iff (streams : List String) :
    ∀ (rest : List CProfile) (acc : List (String × CProfile)),
    (∀ p ∈ rest, ∀ n, p.stream = some n → n ∈ streams) →
    (exOk (openGo streams acc rest) = true ↔
      ((∀ p ∈ rest, p.stream.isSome) ∧ (rest.filterMap CProfile.stream).Nodup
        ∧ ∀ n ∈ rest.filterMap CProfile.stream, alookup n acc = none)) := by
  intro rest
  induction rest with
  | nil =>
    intro acc hknown
    simp [openGo, exOk]
  | cons p tl ih =>
    intro acc hknown
    cases hstream : p.stream with
    | none =>
      have hgo : openGo streams acc (p :: tl) = .error "profile is not part of any stream" := by
        simp [openGo, hstream]
      rw [hgo]
      simp only [exOk]
      constructor
      · intro h; cases h
      · rintro ⟨h1, -, -⟩
        have := h1 p (List.mem_cons_self p tl)
        rw [hstream] at this
        simp at this
    | some name =>
      by_cases hacc : (alookup name acc).isSome
      · have hgo : openGo streams acc (p :: tl)
            = .error "more than one profile found for stream" := by
          simp [openGo, hstream, hacc]
        rw [hgo]
        simp only [exOk]
        constructor
        · intro h; cases h
        · rintro ⟨-, -, h3⟩
          have := h3 name (by simp [List.filterMap_cons, hstream])
          rw [this] at hacc
          simp at hacc
      · have hmemS : name ∈ streams := hknown p (List.mem_cons_self p tl) name hstream
        have haccnone : alookup name acc = none := by
          cases hval : alookup name acc with
          | none => rfl
          | some v => rw [hval] at hacc; simp at hacc
        have hgo : openGo streams acc (p :: tl)
            = openGo streams (acc ++ [(name, p)]) tl := by
          simp [openGo, hstream, hacc, hmemS]
        rw [hgo]
        rw [ih (acc ++ [(name, p)]) (fun q hq => hknown q (List.mem_cons_of_mem p hq))]
        simp only [List.filterMap_cons, hstream, List.mem_cons, List.nodup_cons]
        constructor
        · rintro ⟨h1, h2, h3⟩
          have hnotin : name ∉ tl.filterMap CProfile.stream := by
            intro hmem
            have := h3 name hmem
            rw [alookup_append_single_eq_none] at this
            exact this.2 rfl
          refine ⟨?_, ⟨hnotin, h2⟩, ?_⟩
          · intro q hq
            rcases hq with rfl | hq
            · rw [hstream]; rfl
            · exact h1 q hq
          · intro n hn
            rcases hn with rfl | hn
            · exact haccnone
            · exact ((alookup_append_single_eq_none n name acc p).mp (h3 n hn)).1
        · rintro ⟨h1, ⟨hnotin, h2⟩, h3⟩
          refine ⟨fun q hq => h1 q (Or.inr hq), h2, ?_⟩
          intro n hn
          rw [alookup_append_single_eq_none]
          refine ⟨h3 n (Or.inr hn), ?_⟩
          intro heq
          exact hnotin (heq ▸ hn)

/-- Helper for C9: a successful `open` builds a dictionary with pairwise
distinct stream-name keys. -/
theorem openGo_ok_keys (streams : List String) :
    ∀ (rest : List CProfile) (acc m : List (String × CProfile)),
    (acc.map Prod.fst).Nodup →
    openGo streams acc rest = .ok m →
    (m.map Prod.fst).Nodup := by
  intro rest
  induction rest with
  | nil =>
    intro acc m hacc hok
    simp [openGo] at hok
    exact hok ▸ hacc
  | cons p tl ih =>
    intro acc m hacc hok
    cases hstream : p.stream with
    | none => simp [openGo, hstream] at hok
    | some name =>
      by_cases hdup : (alookup name acc).isSome
      · simp [openGo, hstream, hdup] at hok
      · by_cases hmem : name ∈ streams
        · have hok2 : openGo streams (acc ++ [(name, p)]) tl = .ok m := by
            simpa [openGo, hstream, hdup, hmem] using hok
          have hnone : alookup name acc = none := by
            cases hval : alookup name acc with
            | none => rfl
            | some v => rw [hval] at hdup; simp at hdup
          have hnotin : name ∉ acc.map Prod.fst :=
            (alookup_eq_none_iff_not_memKeys name acc).mp hnone
          refine ih (acc ++ [(name, p)]) m ?_ hok2
          rw [List.map_append]
          rw [List.nodup_append]
          exact ⟨hacc, List.nodup_singleton name, by simpa using hnotin⟩
        · simp [openGo, hstream, hdup, hmem] at hok

/-- C9: for profiles whose streams all belong to the device, the client-side
`open` throws — writing no `open-streams` control message — exactly when the
profile list is empty, some profile belongs to no stream, or two profiles
reference the same stream; and every message it does write maps each stream
name to at most one profile (distinct keys). -/
theorem implOpen_spec (streams : List String) (profiles : List CProfile)
    (hknown : ∀ p ∈ profiles, ∀ n, p.stream = some n → n ∈ streams) :
    (exOk (implOpen streams profiles) = true ↔
       (profiles ≠ [] ∧ (∀ p ∈ profiles, p.stream.isSome)
         ∧ (profiles.filterMap CProfile.stream).Nodup))
      ∧ ∀ m, implOpen streams profiles = .ok m → (m.map Prod.fst).Nodup := by
  constructor
  · by_cases hnil : profiles = []
    · subst hnil
      simp [implOpen, exOk]
    · unfold implOpen
      rw [if_neg (by simpa using hnil)]
      rw [openGo_ok_iff streams profiles [] hknown]
      simp [alookup, hnil]
  · intro m hok
    unfold implOpen at hok
    by_cases hemp : profiles.isEmpty
    · simp [hemp] at hok
    · rw [if_neg (by simpa using hemp)] at hok
      exact openGo_ok_keys streams profiles [] m (by simp) hok

/-- Witness for `implOpen_spec` on a single `Depth` profile. -/
theorem implOpen_spec_witness :
    (exOk (implOpen sampleStreams sampleOpenProfiles) = true ↔
       (sampleOpenProfiles ≠ [] ∧ (∀ p ∈ sampleOpenProfiles, p.stream.isSome)
         ∧ (sampleOpenProfiles.filterMap CProfile.stream).Nodup))
      ∧ ∀ m, implOpen sampleStreams sampleOpenProfiles = .ok m → (m.map Prod.fst).Nodup :=
  implOpen_spec sampleStreams sampleOpenProfiles (by
    intro p hp n hn
    simp only [sampleOpenProfiles, List.mem_singleton] at hp
    subst hp
    simp only [CProfile.stream] at hn
    cases hn
    simp [sampleStreams])

end RealDDS
